import Mathlib

/-!
Shallow embedding of the rate-limiting core and the job-status poller of the
creative-automation-pipeline repository.

Sources embedded:
* `src/libs/rate_limiter.py` — classes `TokenBucket`, `SlidingWindow`,
  `FixedWindow`, `RateLimiter` (the registry), `RateLimiter.wait_if_needed`,
  and the `rate_limit` decorator (the Admission Gate).
* `src/libs/base_api.py` — `BaseAdobeAPI.poll_job_status` and
  `BaseAdobeAPI._extract_status`.
* `src/libs/photoshop_api.py` — `AdobePhotoshopAPI.poll_job_status` (the
  Photoshop override of the poller).

Modelling conventions: Python floats and `time.time()` instants become `ℚ`;
each method that reads the clock takes the current instant `now` as an
explicit argument; methods that mutate `self` return the new state; code
paths that raise (`IndexError` on `deque[0]`, `ZeroDivisionError` on
division by a zero refill rate) return `none`.
-/

/-- state of `TokenBucket` (src/libs/rate_limiter.py lines 37-98):
`capacity`, `refill_rate`, `tokens`, `last_refill`. -/
structure TokenBucket where
  capacity : ℚ
  refill_rate : ℚ
  tokens : ℚ
  last_refill : ℚ
  deriving DecidableEq, Repr

/-- the constructor `TokenBucket.__init__`: starts full (`tokens = capacity`)
with `last_refill` set to the construction instant. -/
def TokenBucket.init (capacity refill_rate now : ℚ) : TokenBucket :=
  { capacity := capacity, refill_rate := refill_rate,
    tokens := capacity, last_refill := now }

/-- models `TokenBucket._refill`: add `elapsed * refill_rate` tokens, capped
at `capacity`, and stamp `last_refill := now`. -/
def TokenBucket.refill (b : TokenBucket) (now : ℚ) : TokenBucket :=
  let elapsed := now - b.last_refill
  let tokens_to_add := elapsed * b.refill_rate
  { b with tokens := min b.capacity (b.tokens + tokens_to_add), last_refill := now }

/-- models `TokenBucket.acquire`: refill, then deduct `tokens` iff
`self.tokens >= tokens`; returns the success flag and the new state. -/
def TokenBucket.acquire (b : TokenBucket) (now tokens : ℚ) : Bool × TokenBucket :=
  let b1 := b.refill now
  if tokens ≤ b1.tokens then (true, { b1 with tokens := b1.tokens - tokens })
  else (false, b1)

/-- models `TokenBucket.get_wait_time`: refill, return `0` when enough tokens
are available, otherwise `(tokens - self.tokens) / refill_rate`; the division
raises `ZeroDivisionError` in Python when `refill_rate = 0`, modelled as
`none`. The refilled state is returned because `_refill` mutates `self`. -/
def TokenBucket.get_wait_time (b : TokenBucket) (now tokens : ℚ) :
    Option ℚ × TokenBucket :=
  let b1 := b.refill now
  if tokens ≤ b1.tokens then (some 0, b1)
  else if b1.refill_rate = 0 then (none, b1)
  else (some ((tokens - b1.tokens) / b1.refill_rate), b1)

/-- state of `SlidingWindow` (src/libs/rate_limiter.py lines 101-148): the
deque of admission timestamps is a list with its front at the head. -/
structure SlidingWindow where
  max_requests : ℕ
  time_window : ℚ
  requests : List ℚ
  deriving DecidableEq, Repr

/-- the constructor `SlidingWindow.__init__`: empty deque. -/
def SlidingWindow.init (max_requests : ℕ) (time_window : ℚ) : SlidingWindow :=
  { max_requests := max_requests, time_window := time_window, requests := [] }

/-- models the eviction loop in `SlidingWindow.acquire`:
`while self.requests and self.requests[0] <= now - self.time_window: popleft()`. -/
def evictOld (now time_window : ℚ) : List ℚ → List ℚ
  | [] => []
  | t :: ts => if t ≤ now - time_window then evictOld now time_window ts else t :: ts

/-- models `SlidingWindow.acquire`: evict aged timestamps, then admit and
append `now` iff the remaining count is below `max_requests`. -/
def SlidingWindow.acquire (w : SlidingWindow) (now : ℚ) : Bool × SlidingWindow :=
  let reqs := evictOld now w.time_window w.requests
  if reqs.length < w.max_requests then (true, { w with requests := reqs ++ [now] })
  else (false, { w with requests := reqs })

/-- models `SlidingWindow.get_wait_time`: no eviction is performed; if the
deque is under capacity return `0`, otherwise `requests[0] + time_window - now`
(`requests[0]` raises `IndexError` on an empty deque, modelled as `none`). -/
def SlidingWindow.get_wait_time (w : SlidingWindow) (now : ℚ) : Option ℚ :=
  if w.requests.length < w.max_requests then some 0
  else
    match w.requests with
    | [] => none
    | oldest :: _ => some (oldest + w.time_window - now)

/-- state of `FixedWindow` (src/libs/rate_limiter.py lines 151-202). -/
structure FixedWindow where
  max_requests : ℕ
  time_window : ℚ
  window_start : ℚ
  request_count : ℕ
  deriving DecidableEq, Repr

/-- the constructor `FixedWindow.__init__`: window starts now with count 0. -/
def FixedWindow.init (max_requests : ℕ) (time_window : ℚ) (now : ℚ) : FixedWindow :=
  { max_requests := max_requests, time_window := time_window,
    window_start := now, request_count := 0 }

/-- models `FixedWindow.acquire`: reset the window if `now - window_start >=
time_window`, then admit and increment iff `request_count < max_requests`. -/
def FixedWindow.acquire (w : FixedWindow) (now : ℚ) : Bool × FixedWindow :=
  let w1 := if w.time_window ≤ now - w.window_start
            then { w with window_start := now, request_count := 0 } else w
  if w1.request_count < w1.max_requests
  then (true, { w1 with request_count := w1.request_count + 1 })
  else (false, w1)

/-- models `FixedWindow.get_wait_time`: `0` once the window has ended,
otherwise the time left until `window_start + time_window`. -/
def FixedWindow.get_wait_time (w : FixedWindow) (now : ℚ) : ℚ :=
  let window_end := w.window_start + w.time_window
  if window_end ≤ now then 0 else window_end - now

/-- one registered limiter instance: the registry stores any of the three
algorithm variants (`self.limiters: Dict[str, Any]`). -/
inductive Limiter where
  | tb : TokenBucket → Limiter
  | sw : SlidingWindow → Limiter
  | fw : FixedWindow → Limiter
  deriving DecidableEq, Repr

/-- state of the registry class `RateLimiter` (src/libs/rate_limiter.py lines
205-286): the dict of named limiters, as an association list. -/
structure RateLimiter where
  limiters : List (String × Limiter)
  deriving DecidableEq, Repr

/-- dict lookup `self.limiters[name]` (with the `name not in self.limiters`
test yielding `none`). -/
def lookupLimiter (name : String) : List (String × Limiter) → Option Limiter
  | [] => none
  | (k, v) :: rest => if k = name then some v else lookupLimiter name rest

/-- in-place mutation of the named limiter instance: rebinds `name` in the
dict, leaving every other entry unchanged. -/
def setLimiter (name : String) (lim : Limiter) :
    List (String × Limiter) → List (String × Limiter)
  | [] => []
  | (k, v) :: rest =>
    if k = name then (k, lim) :: rest else (k, v) :: setLimiter name lim rest

/-- models `RateLimiter.acquire(name, tokens)`: unknown names are admitted
with no state change; a `TokenBucket` receives the `tokens` argument, while
`SlidingWindow` and `FixedWindow` are called without it. -/
def RateLimiter.acquire (r : RateLimiter) (name : String) (now tokens : ℚ) :
    Bool × RateLimiter :=
  match lookupLimiter name r.limiters with
  | none => (true, r)
  | some (.tb b) =>
    let res := b.acquire now tokens
    (res.1, { limiters := setLimiter name (.tb res.2) r.limiters })
  | some (.sw w) =>
    let res := w.acquire now
    (res.1, { limiters := setLimiter name (.sw res.2) r.limiters })
  | some (.fw w) =>
    let res := w.acquire now
    (res.1, { limiters := setLimiter name (.fw res.2) r.limiters })

/-- models `RateLimiter.get_wait_time(name, tokens)`: unknown names report a
zero wait with no state change; only the `TokenBucket` variant receives
`tokens` (and mutates itself by refilling). -/
def RateLimiter.get_wait_time (r : RateLimiter) (name : String) (now tokens : ℚ) :
    Option ℚ × RateLimiter :=
  match lookupLimiter name r.limiters with
  | none => (some 0, r)
  | some (.tb b) =>
    let res := b.get_wait_time now tokens
    (res.1, { limiters := setLimiter name (.tb res.2) r.limiters })
  | some (.sw w) => (w.get_wait_time now, r)
  | some (.fw w) => (some (w.get_wait_time now), r)

/-- models `RateLimiter.wait_if_needed(name, tokens)`: one call to
`get_wait_time`, then `time.sleep(wait_time)` iff the result is positive.
Returns the duration slept together with the resulting registry state
(`none` when `get_wait_time` raises). This is also the whole waiting branch
of the `rate_limit` decorator: with `wait=True` the wrapper calls
`wait_if_needed` and then runs the wrapped function. -/
def RateLimiter.wait_if_needed (r : RateLimiter) (name : String) (now tokens : ℚ) :
    Option (ℚ × RateLimiter) :=
  match r.get_wait_time name now tokens with
  | (none, _) => none
  | (some wt, r1) => some (if 0 < wt then wt else 0, r1)

/-- first element of a response's `outputs` array: only its `status` key is
read by the pollers (`output.get('status')` conflates an absent key and a
null value, both becoming `none`). -/
structure OutputObj where
  status : Option String
  deriving DecidableEq, Repr

/-- nested `job` object of a response: only `job.get('status')` is read. -/
structure JobObj where
  status : Option String
  deriving DecidableEq, Repr

/-- one JSON status response, restricted to the keys the pollers read.
`status` is doubly optional because the code tests `'status' in status_data`
before `status_data.get('status')`: the outer `Option` is key presence, the
inner one distinguishes a string value from JSON null. For `outputs` and
`job` the outer `Option` is key presence; for `error` and `message` a
missing key and a null value are conflated as in `dict.get`. -/
structure StatusData where
  status : Option (Option String)
  outputs : Option (List OutputObj)
  job : Option JobObj
  error : Option String
  message : Option String
  deriving DecidableEq, Repr

/-- models `BaseAdobeAPI._extract_status` (src/libs/base_api.py lines
173-194) and the identical inline extraction of
`AdobePhotoshopAPI.poll_job_status` (src/libs/photoshop_api.py lines 87-97):
try the top-level `status` key, then `outputs[0]`'s `status` when `outputs`
is present and non-empty, then `job`'s `status`; otherwise `None`. -/
def extractStatus (d : StatusData) : Option String :=
  match d.status with
  | some v => v
  | none =>
    match d.outputs with
    | some (o :: _) => o.status
    | _ =>
      match d.job with
      | some j => j.status
      | none => none

/-- the failure payload `status_data.get('error', status_data.get('message',
'Unknown error'))` used by both pollers when the status is `failed`. -/
def errorPayload (d : StatusData) : String :=
  d.error.getD (d.message.getD "Unknown error")

/-- observable result of a polling run: the returned response dict, the
message of the raised job-failure exception, or the number of seconds
reported by the timeout exception (`Job did not complete within N seconds`,
with `N = max_attempts * poll_interval`). -/
inductive PollOutcome where
  | success : StatusData → PollOutcome
  | jobFailed : String → PollOutcome
  | timedOut : ℕ → PollOutcome
  deriving DecidableEq, Repr

/-- models the `while attempt < max_attempts` loop of
`BaseAdobeAPI.poll_job_status` (src/libs/base_api.py lines 125-171) from the
iteration with counter `attempt`, driven by the stream `responses` of
successive response bodies. Besides the outcome it returns the number of
status checks performed. Succeeded returns the response; failed raises with
the error payload; the `pending`/`running`/`processing` branch and the
unknown-status `else` branch both sleep `poll_interval` seconds and
increment `attempt`; exhausting the attempts raises the timeout message. -/
def pollBaseFrom (responses : ℕ → StatusData) (poll_interval max_attempts attempt : ℕ) :
    PollOutcome × ℕ :=
  if _h : attempt < max_attempts then
    let d := responses attempt
    let status := extractStatus d
    if status = some "succeeded" then (.success d, 1)
    else if status = some "failed" then
      (.jobFailed ("Job failed: " ++ errorPayload d), 1)
    else
      let rest := pollBaseFrom responses poll_interval max_attempts (attempt + 1)
      (rest.1, rest.2 + 1)
  else
    (.timedOut (max_attempts * poll_interval), 0)
termination_by max_attempts - attempt
decreasing_by omega

/-- models `BaseAdobeAPI.poll_job_status` itself: the loop started at
`attempt = 0`. -/
def BaseAdobeAPI.poll_job_status (responses : ℕ → StatusData)
    (poll_interval max_attempts : ℕ) : PollOutcome × ℕ :=
  pollBaseFrom responses poll_interval max_attempts 0

/-- models the loop of the override `AdobePhotoshopAPI.poll_job_status`
(src/libs/photoshop_api.py lines 75-131). It differs from the base loop in
one branch: when the extracted status is `None`, a response with a
non-empty `outputs` array is returned as an assumed success, otherwise
polling continues. -/
def pollPSFrom (responses : ℕ → StatusData) (poll_interval max_attempts attempt : ℕ) :
    PollOutcome × ℕ :=
  if _h : attempt < max_attempts then
    let d := responses attempt
    let status := extractStatus d
    if status = some "succeeded" then (.success d, 1)
    else if status = some "failed" then
      (.jobFailed ("Job failed: " ++ errorPayload d), 1)
    else if status = some "pending" ∨ status = some "running" ∨
            status = some "processing" then
      let rest := pollPSFrom responses poll_interval max_attempts (attempt + 1)
      (rest.1, rest.2 + 1)
    else if status = none then
      match d.outputs with
      | some (_ :: _) => (.success d, 1)
      | _ =>
        let rest := pollPSFrom responses poll_interval max_attempts (attempt + 1)
        (rest.1, rest.2 + 1)
    else
      let rest := pollPSFrom responses poll_interval max_attempts (attempt + 1)
      (rest.1, rest.2 + 1)
  else
    (.timedOut (max_attempts * poll_interval), 0)
termination_by max_attempts - attempt
decreasing_by all_goals omega

/-- models `AdobePhotoshopAPI.poll_job_status` itself: the override's loop
started at `attempt = 0`. -/
def AdobePhotoshopAPI.poll_job_status (responses : ℕ → StatusData)
    (poll_interval max_attempts : ℕ) : PollOutcome × ℕ :=
  pollPSFrom responses poll_interval max_attempts 0

/-- a burst against a token bucket: `n` single-token `acquire` calls issued
back-to-back at one instant, collecting the success flags in order. -/
def TokenBucket.burstAcquire (b : TokenBucket) (now : ℚ) : ℕ → List Bool × TokenBucket
  | 0 => ([], b)
  | n + 1 =>
    let first := b.acquire now 1
    let rest := first.2.burstAcquire now n
    (first.1 :: rest.1, rest.2)

/-- one call against a token bucket — either `acquire` or `get_wait_time` —
with the instant at which it happens and the token amount it requests. -/
inductive TBCall where
  | acq : ℚ → ℚ → TBCall
  | gwt : ℚ → ℚ → TBCall
  deriving DecidableEq, Repr

/-- the instant of a call. -/
def TBCall.time : TBCall → ℚ
  | .acq t _ => t
  | .gwt t _ => t

/-- the token amount a call requests. -/
def TBCall.amount : TBCall → ℚ
  | .acq _ n => n
  | .gwt _ n => n

/-- state transition of one call: the bucket state after `acquire` or after
`get_wait_time` (which mutates by refilling). -/
def TokenBucket.step (b : TokenBucket) (c : TBCall) : TokenBucket :=
  match c with
  | .acq t n => (b.acquire t n).2
  | .gwt t n => (b.get_wait_time t n).2

/-- state after a whole sequence of calls. -/
def TokenBucket.run (b : TokenBucket) (cs : List TBCall) : TokenBucket :=
  cs.foldl TokenBucket.step b

/-- a call sequence is chronological from instant `t` when the call instants
are non-decreasing and none precedes `t` (the wall clock read by
`time.time()` never runs backwards). -/
def chronological : ℚ → List TBCall → Prop
  | _, [] => True
  | t, c :: cs => t ≤ c.time ∧ chronological c.time cs

/-! Helper lemmas about the embedded operations. -/

/-- refilling leaves the capacity field unchanged. -/
lemma refill_capacity_eq (b : TokenBucket) (now : ℚ) :
    (b.refill now).capacity = b.capacity := rfl

/-- the bucket state `get_wait_time` leaves behind is exactly the refilled
bucket, in every branch. -/
lemma gwt_state (b : TokenBucket) (now n : ℚ) :
    (b.get_wait_time now n).2 = b.refill now := by
  simp only [TokenBucket.get_wait_time]
  split_ifs <;> rfl

/-- the bucket state `acquire` leaves behind: the refilled bucket, minus the
requested tokens when they were available. -/
lemma acquire_state (b : TokenBucket) (now n : ℚ) :
    (b.acquire now n).2 = if n ≤ (b.refill now).tokens
      then { b.refill now with tokens := (b.refill now).tokens - n }
      else b.refill now := by
  simp only [TokenBucket.acquire]
  split_ifs <;> rfl

/-- refilling at a later instant with non-negative rate keeps the token count
within `[0, capacity]`. -/
lemma refill_inv (b : TokenBucket) (now : ℚ) (h0 : 0 ≤ b.tokens)
    (h1 : b.tokens ≤ b.capacity) (hr : 0 ≤ b.refill_rate) (ht : b.last_refill ≤ now) :
    0 ≤ (b.refill now).tokens ∧ (b.refill now).tokens ≤ b.capacity := by
  unfold TokenBucket.refill
  dsimp only
  constructor
  · exact le_min (h0.trans h1) (by nlinarith)
  · exact min_le_left _ _

/-- a single `acquire` or `get_wait_time` call preserves `0 ≤ tokens ≤
capacity`, keeps `capacity` and `refill_rate` unchanged, and stamps
`last_refill` with the call instant. -/
lemma step_inv (b : TokenBucket) (c : TBCall) (h0 : 0 ≤ b.tokens)
    (h1 : b.tokens ≤ b.capacity) (hr : 0 ≤ b.refill_rate)
    (ht : b.last_refill ≤ c.time) (ha : 0 ≤ c.amount) :
    (0 ≤ (b.step c).tokens ∧ (b.step c).tokens ≤ (b.step c).capacity) ∧
    (b.step c).capacity = b.capacity ∧ (b.step c).refill_rate = b.refill_rate ∧
    (b.step c).last_refill = c.time := by
  obtain ⟨hr0, hr1⟩ := refill_inv b c.time h0 h1 hr ht
  cases c with
  | acq t n =>
    simp only [TBCall.amount] at ha
    simp only [TBCall.time] at hr0 hr1 ⊢
    simp only [TokenBucket.step, acquire_state]
    split_ifs with h
    · refine ⟨⟨?_, ?_⟩, rfl, rfl, rfl⟩ <;> dsimp only
      · linarith
      · simp only [refill_capacity_eq] at hr1 ⊢
        linarith
    · exact ⟨⟨hr0, by simpa only [refill_capacity_eq] using hr1⟩, rfl, rfl, rfl⟩
  | gwt t n =>
    simp only [TBCall.time] at hr0 hr1 ⊢
    simp only [TokenBucket.step, gwt_state]
    exact ⟨⟨hr0, by simpa only [refill_capacity_eq] using hr1⟩, rfl, rfl, rfl⟩

/-- a burst of `k` single-token acquisitions at the construction instant,
started from `tok ≤ cap` available tokens with `k ≤ tok`: every call
succeeds and exactly `k` tokens are consumed. -/
lemma burstAcquire_run (cap r t0 tok : ℚ) (k : ℕ) (htok : tok ≤ cap) (hk : (k : ℚ) ≤ tok) :
    (TokenBucket.mk cap r tok t0).burstAcquire t0 k
      = (List.replicate k true, TokenBucket.mk cap r (tok - k) t0) := by
  induction k generalizing tok with
  | zero => simp [TokenBucket.burstAcquire]
  | succ k ih =>
    have hk1 : (k : ℚ) + 1 ≤ tok := by push_cast at hk; linarith
    have h1 : (1 : ℚ) ≤ tok := by
      have : (0 : ℚ) ≤ (k : ℚ) := Nat.cast_nonneg k
      linarith
    have e1 : (TokenBucket.mk cap r tok t0).acquire t0 1
        = (true, TokenBucket.mk cap r (tok - 1) t0) := by
      simp [TokenBucket.acquire, TokenBucket.refill, min_eq_right htok, h1]
    have e2 := ih (tok - 1) (by linarith) (by linarith)
    have e3 : tok - 1 - (k : ℚ) = tok - ((k : ℚ) + 1) := by ring
    rw [TokenBucket.burstAcquire]
    simp only [e1, e2, List.replicate_succ]
    push_cast
    rw [e3]

/-- closed form of the wait the token bucket reports when its refill rate is
positive (the division-by-zero branch is unreachable). -/
lemma gwt_fst (b : TokenBucket) (now n : ℚ) (hr : 0 < b.refill_rate) :
    (b.get_wait_time now n).1
      = some (if n ≤ (b.refill now).tokens then 0
              else (n - (b.refill now).tokens) / b.refill_rate) := by
  simp only [TokenBucket.get_wait_time]
  split_ifs with h1 h2
  · rfl
  · exact absurd h2 (ne_of_gt hr)
  · rfl

/-- with a positive refill rate the token bucket's reported wait is
non-negative. -/
lemma tb_gwt_nonneg (b : TokenBucket) (now n : ℚ) (hr : 0 < b.refill_rate) :
    ∀ v, (b.get_wait_time now n).1 = some v → 0 ≤ v := by
  intro v hv
  rw [gwt_fst b now n hr, Option.some.injEq] at hv
  subst hv
  split_ifs with h1
  · exact le_refl 0
  · exact le_of_lt (div_pos (by linarith [lt_of_not_le h1]) hr)

/-- two successive `get_wait_time` queries at non-decreasing instants with no
interleaved acquisition report non-increasing waits (token bucket). -/
lemma tb_gwt_monotone (b : TokenBucket) (t1 t2 n : ℚ) (hr : 0 < b.refill_rate)
    (h12 : t1 ≤ t2) :
    ∀ v1 v2, (b.get_wait_time t1 n).1 = some v1 →
      ((b.get_wait_time t1 n).2.get_wait_time t2 n).1 = some v2 → v2 ≤ v1 := by
  intro v1 v2 hv1 hv2
  rw [gwt_state] at hv2
  have hr1 : (0 : ℚ) < (b.refill t1).refill_rate := hr
  have hcap1 : (b.refill t1).tokens ≤ b.capacity := min_le_left _ _
  have htok : (b.refill t1).tokens ≤ ((b.refill t1).refill t2).tokens := by
    refine le_min hcap1 ?_
    have h0 : (0 : ℚ) ≤ (t2 - t1) * b.refill_rate := mul_nonneg (by linarith) (le_of_lt hr)
    show (b.refill t1).tokens ≤ (b.refill t1).tokens + (t2 - t1) * b.refill_rate
    linarith
  rw [gwt_fst b t1 n hr, Option.some.injEq] at hv1
  rw [gwt_fst (b.refill t1) t2 n hr1, Option.some.injEq,
    show (b.refill t1).refill_rate = b.refill_rate from rfl] at hv2
  subst hv1 hv2
  by_cases ha : n ≤ (b.refill t1).tokens
  · rw [if_pos ha, if_pos (le_trans ha htok)]
  · by_cases hb : n ≤ ((b.refill t1).refill t2).tokens
    · rw [if_neg ha, if_pos hb]
      exact le_of_lt (div_pos (by linarith [lt_of_not_le ha]) hr)
    · rw [if_neg ha, if_neg hb]
      have h1 : n - ((b.refill t1).refill t2).tokens ≤ n - (b.refill t1).tokens := by linarith
      exact (div_le_div_iff_of_pos_right hr).mpr h1

/-- the sliding window's reported wait is non-increasing in the query instant
(the state is not mutated by `get_wait_time`). -/
lemma sw_gwt_monotone (w : SlidingWindow) (t1 t2 : ℚ) (h : t1 ≤ t2) :
    ∀ v1 v2, w.get_wait_time t1 = some v1 → w.get_wait_time t2 = some v2 → v2 ≤ v1 := by
  intro v1 v2 h1 h2
  unfold SlidingWindow.get_wait_time at h1 h2
  split_ifs at h1 h2 with hlen
  · simp only [Option.some.injEq] at h1 h2
    exact h2 ▸ h1 ▸ le_refl 0
  · cases wr : w.requests with
    | nil => rw [wr] at h1; simp at h1
    | cons oldest rest =>
      rw [wr] at h1 h2
      simp only [Option.some.injEq] at h1 h2
      subst h1 h2
      linarith

/-- the fixed window's reported wait is never negative. -/
lemma fw_gwt_nonneg (w : FixedWindow) (now : ℚ) : 0 ≤ w.get_wait_time now := by
  unfold FixedWindow.get_wait_time
  dsimp only
  split_ifs with h
  · exact le_refl 0
  · linarith [lt_of_not_le h]

/-- the fixed window's reported wait is non-increasing in the query instant. -/
lemma fw_gwt_monotone (w : FixedWindow) (t1 t2 : ℚ) (h : t1 ≤ t2) :
    w.get_wait_time t2 ≤ w.get_wait_time t1 := by
  unfold FixedWindow.get_wait_time
  dsimp only
  split_ifs with h1 h2 h2
  · exact le_refl 0
  · linarith [lt_of_not_le h2]
  · linarith
  · linarith

/-- rebinding a registered name and looking it up again yields the new
limiter instance. -/
lemma lookup_set (name : String) (lim : Limiter) :
    ∀ l : List (String × Limiter), (lookupLimiter name l).isSome →
      lookupLimiter name (setLimiter name lim l) = some lim := by
  intro l
  induction l with
  | nil => simp [lookupLimiter]
  | cons p rest ih =>
    obtain ⟨k, v⟩ := p
    by_cases hk : k = name
    · simp [lookupLimiter, setLimiter, hk]
    · simp only [lookupLimiter, setLimiter, hk, if_false]
      exact ih

/-- when every extracted status is a non-terminal code, the base polling loop
started at `attempt = a` with `a + d = m` performs `d` more checks and raises
the timeout. -/
lemma pollBaseFrom_nonterminal (responses : ℕ → StatusData) (i m : ℕ)
    (h : ∀ k, ∃ s, extractStatus (responses k) = some s ∧ s ≠ "succeeded" ∧ s ≠ "failed") :
    ∀ d a, a + d = m → pollBaseFrom responses i m a = (.timedOut (m * i), d) := by
  intro d
  induction d with
  | zero =>
    intro a ha
    rw [pollBaseFrom]
    simp [show ¬ a < m by omega]
  | succ d ih =>
    intro a ha
    obtain ⟨s, hs, hs1, hs2⟩ := h a
    rw [pollBaseFrom]
    simp [show a < m by omega, hs, hs1, hs2, ih (a + 1) (by omega)]

/-- when every extracted status is a non-terminal code, the Photoshop polling
loop behaves like the base loop: `d` more checks, then the timeout. -/
lemma pollPSFrom_nonterminal (responses : ℕ → StatusData) (i m : ℕ)
    (h : ∀ k, ∃ s, extractStatus (responses k) = some s ∧ s ≠ "succeeded" ∧ s ≠ "failed") :
    ∀ d a, a + d = m → pollPSFrom responses i m a = (.timedOut (m * i), d) := by
  intro d
  induction d with
  | zero =>
    intro a ha
    rw [pollPSFrom]
    simp [show ¬ a < m by omega]
  | succ d ih =>
    intro a ha
    obtain ⟨s, hs, hs1, hs2⟩ := h a
    rw [pollPSFrom]
    by_cases hp : s = "pending" ∨ s = "running" ∨ s = "processing"
    · simp [show a < m by omega, hs, hs1, hs2, hp, ih (a + 1) (by omega)]
    · push_neg at hp
      simp [show a < m by omega, hs, hs1, hs2, hp.1, hp.2.1, hp.2.2, ih (a + 1) (by omega)]

/-! Claim theorems. -/

/-- C1: the claim states that in waiting mode the Admission Gate loops until
a successful `tryAcquire` commits the cost before the wrapped action runs.
The code's waiting branch (`rate_limit` with `wait=True`, which only calls
`RateLimiter.wait_if_needed`) never calls `acquire` at all: at the failing
input — a registry whose `adobe_photoshop` limiter is a full sliding window
(limit 1 per 10 s, one admission recorded at t = 0) and a waiting admission
at t = 5 — the gate sleeps the computed 5 seconds and then returns with the
registry state unchanged: the recorded-admissions deque is still `[0]`, so
no cost was committed and no `tryAcquire` ever happened. -/
theorem C1_wait_mode_gate_commits_no_cost :
    RateLimiter.wait_if_needed ⟨[("adobe_photoshop", Limiter.sw ⟨1, 10, [0]⟩)]⟩
        "adobe_photoshop" 5 1
      = some (5, ⟨[("adobe_photoshop", Limiter.sw ⟨1, 10, [0]⟩)]⟩) := by
  norm_num [RateLimiter.wait_if_needed, RateLimiter.get_wait_time, lookupLimiter,
    SlidingWindow.get_wait_time]

/-- C2 counterexample: a response whose `outputs` array is non-empty but
carries no status anywhere. The Photoshop override returns it as a success
on the first attempt, but the base client does not: it keeps polling and
times out after all 3 attempts, refuting the claim that both pollers deem
the job succeeded and return immediately. -/
theorem C2_counterexample :
    extractStatus ⟨none, some [⟨none⟩], none, none, none⟩ = none ∧
    AdobePhotoshopAPI.poll_job_status
        (fun _ => ⟨none, some [⟨none⟩], none, none, none⟩) 5 3
      = (.success ⟨none, some [⟨none⟩], none, none, none⟩, 1) ∧
    BaseAdobeAPI.poll_job_status
        (fun _ => ⟨none, some [⟨none⟩], none, none, none⟩) 5 3
      = (.timedOut 15, 3) := by
  refine ⟨rfl, ?_, ?_⟩
  · simp [AdobePhotoshopAPI.poll_job_status, pollPSFrom, extractStatus]
  · simp [BaseAdobeAPI.poll_job_status, pollBaseFrom, extractStatus]

/-- C2 (amended): when no status location yields an explicit status but the
`outputs` array is present and non-empty, only the Photoshop override deems
the job succeeded and returns that response immediately on that attempt; the
base client treats the response as an unknown status, sleeps, and continues
to the next attempt. -/
theorem C2_amended_inferred_success_photoshop_only (d : StatusData)
    (responses : ℕ → StatusData) (i m a : ℕ) (ha : a < m) (hr : responses a = d)
    (hs : extractStatus d = none) (o : OutputObj) (os : List OutputObj)
    (ho : d.outputs = some (o :: os)) :
    pollPSFrom responses i m a = (.success d, 1) ∧
    pollBaseFrom responses i m a
      = ((pollBaseFrom responses i m (a + 1)).1,
         (pollBaseFrom responses i m (a + 1)).2 + 1) := by
  constructor
  · rw [pollPSFrom]
    simp [ha, hr, hs, ho]
  · rw [pollBaseFrom]
    simp [ha, hr, hs]

/-- C2 witness: the amended theorem applied at the concrete no-status
response with one output, `poll_interval = 5`, `max_attempts = 1`,
`attempt = 0`. -/
theorem C2_amended_witness :
    pollPSFrom (fun _ => ⟨none, some [⟨none⟩], none, none, none⟩) 5 1 0
      = (.success ⟨none, some [⟨none⟩], none, none, none⟩, 1) ∧
    pollBaseFrom (fun _ => ⟨none, some [⟨none⟩], none, none, none⟩) 5 1 0
      = ((pollBaseFrom (fun _ => ⟨none, some [⟨none⟩], none, none, none⟩) 5 1 1).1,
         (pollBaseFrom (fun _ => ⟨none, some [⟨none⟩], none, none, none⟩) 5 1 1).2 + 1) :=
  C2_amended_inferred_success_photoshop_only
    ⟨none, some [⟨none⟩], none, none, none⟩
    (fun _ => ⟨none, some [⟨none⟩], none, none, none⟩) 5 1 0
    (by norm_num) rfl rfl ⟨none⟩ [] rfl

/-- C3 counterexample: a reachable sliding-window state on which
`get_wait_time` is negative. With `maxRequests = 1, windowSeconds = 10`, one
admission at t = 0 succeeds; querying the wait at t = 11 — when the stored
admission has aged out of the window but `get_wait_time` performs no
eviction — returns −1, refuting the claim that `timeUntilAvailable` is
always non-negative for every variant. -/
theorem C3_counterexample :
    ((SlidingWindow.init 1 10).acquire 0).1 = true ∧
    ((SlidingWindow.init 1 10).acquire 0).2.get_wait_time 11 = some (-1) ∧
    ¬ (0 : ℚ) ≤ (-1 : ℚ) := by
  refine ⟨?_, ?_, by norm_num⟩ <;>
    norm_num [SlidingWindow.init, SlidingWindow.acquire, SlidingWindow.get_wait_time,
      evictOld]

/-- C3 (amended): `get_wait_time` is always non-negative for a TokenBucket
with positive refill rate and for a FixedWindow, and for all three variants
successive queries absent new admissions return non-increasing values; the
SlidingWindow variant alone can return a negative value, once the oldest
recorded admission has aged past the window without being evicted. -/
theorem C3_amended_wait_time_bounds :
    (∀ (b : TokenBucket) (now n : ℚ), 0 < b.refill_rate →
       ∀ v, (b.get_wait_time now n).1 = some v → 0 ≤ v) ∧
    (∀ (w : FixedWindow) (now : ℚ), 0 ≤ w.get_wait_time now) ∧
    (∀ (b : TokenBucket) (t1 t2 n : ℚ), 0 < b.refill_rate → t1 ≤ t2 →
       ∀ v1 v2, (b.get_wait_time t1 n).1 = some v1 →
         ((b.get_wait_time t1 n).2.get_wait_time t2 n).1 = some v2 → v2 ≤ v1) ∧
    (∀ (w : SlidingWindow) (t1 t2 : ℚ), t1 ≤ t2 →
       ∀ v1 v2, w.get_wait_time t1 = some v1 → w.get_wait_time t2 = some v2 →
         v2 ≤ v1) ∧
    (∀ (w : FixedWindow) (t1 t2 : ℚ), t1 ≤ t2 →
       w.get_wait_time t2 ≤ w.get_wait_time t1) :=
  ⟨fun b now n hr => tb_gwt_nonneg b now n hr,
   fun w now => fw_gwt_nonneg w now,
   fun b t1 t2 n hr h12 => tb_gwt_monotone b t1 t2 n hr h12,
   fun w t1 t2 h => sw_gwt_monotone w t1 t2 h,
   fun w t1 t2 h => fw_gwt_monotone w t1 t2 h⟩

/-- C3 witness: each amended conjunct applied at a concrete input, with the
hypotheses discharged by evaluation. -/
theorem C3_amended_witness :
    ((0 : ℚ) < (TokenBucket.mk 1 1 0 0).refill_rate ∧
     ((TokenBucket.mk 1 1 0 0).get_wait_time 0 1).1 = some 1 ∧ (0 : ℚ) ≤ 1) ∧
    ((0 : ℚ) ≤ FixedWindow.get_wait_time ⟨1, 10, 0, 1⟩ 2) ∧
    (((TokenBucket.mk 4 1 0 0).get_wait_time 1 3).1 = some 2 ∧
     (((TokenBucket.mk 4 1 0 0).get_wait_time 1 3).2.get_wait_time 2 3).1 = some 1 ∧
     (1 : ℚ) ≤ 2) ∧
    (SlidingWindow.get_wait_time ⟨1, 10, [0]⟩ 2 = some 8 ∧
     SlidingWindow.get_wait_time ⟨1, 10, [0]⟩ 3 = some 7 ∧ (7 : ℚ) ≤ 8) ∧
    FixedWindow.get_wait_time ⟨1, 10, 0, 1⟩ 3 ≤ FixedWindow.get_wait_time ⟨1, 10, 0, 1⟩ 2 :=
  ⟨⟨by norm_num,
    by norm_num [TokenBucket.get_wait_time, TokenBucket.refill],
    C3_amended_wait_time_bounds.1 (TokenBucket.mk 1 1 0 0) 0 1 (by norm_num) 1
      (by norm_num [TokenBucket.get_wait_time, TokenBucket.refill])⟩,
   C3_amended_wait_time_bounds.2.1 ⟨1, 10, 0, 1⟩ 2,
   ⟨by norm_num [TokenBucket.get_wait_time, TokenBucket.refill],
    by norm_num [TokenBucket.get_wait_time, TokenBucket.refill],
    C3_amended_wait_time_bounds.2.2.1 (TokenBucket.mk 4 1 0 0) 1 2 3 (by norm_num)
      (by norm_num) 2 1
      (by norm_num [TokenBucket.get_wait_time, TokenBucket.refill])
      (by norm_num [TokenBucket.get_wait_time, TokenBucket.refill])⟩,
   ⟨by norm_num [SlidingWindow.get_wait_time],
    by norm_num [SlidingWindow.get_wait_time],
    C3_amended_wait_time_bounds.2.2.2.1 ⟨1, 10, [0]⟩ 2 3 (by norm_num) 8 7
      (by norm_num [SlidingWindow.get_wait_time])
      (by norm_num [SlidingWindow.get_wait_time])⟩,
   C3_amended_wait_time_bounds.2.2.2.2 ⟨1, 10, 0, 1⟩ 2 3 (by norm_num)⟩

/-- C4: for every name with no registered limiter instance and every token
amount, the registry's `acquire` returns `True` and `get_wait_time` returns
`0.0`, and both return the registry state unchanged (fail-open for unknown
names). -/
theorem C4_unknown_name_fail_open (r : RateLimiter) (name : String) (now n : ℚ)
    (h : lookupLimiter name r.limiters = none) :
    r.acquire name now n = (true, r) ∧ r.get_wait_time name now n = (some 0, r) := by
  constructor
  · simp [RateLimiter.acquire, h]
  · simp [RateLimiter.get_wait_time, h]

/-- C4 witness: the empty registry has no limiter named `adobe_firefly`, and
both calls are no-op admits. -/
theorem C4_unknown_name_fail_open_witness :
    RateLimiter.acquire ⟨[]⟩ "adobe_firefly" 0 1 = (true, ⟨[]⟩) ∧
    RateLimiter.get_wait_time ⟨[]⟩ "adobe_firefly" 0 1 = (some 0, ⟨[]⟩) :=
  C4_unknown_name_fail_open ⟨[]⟩ "adobe_firefly" 0 1 rfl

/-- C5: when every extracted status is a non-terminal code, both pollers
perform exactly `max_attempts` status checks, make no success or failure
transition, and abort with the timeout error reporting the total budget
`max_attempts * poll_interval` seconds. -/
theorem C5_timeout_after_max_attempts (responses : ℕ → StatusData) (i m : ℕ)
    (h : ∀ k, ∃ s, extractStatus (responses k) = some s ∧
          s ≠ "succeeded" ∧ s ≠ "failed") :
    BaseAdobeAPI.poll_job_status responses i m = (.timedOut (m * i), m) ∧
    AdobePhotoshopAPI.poll_job_status responses i m = (.timedOut (m * i), m) :=
  ⟨pollBaseFrom_nonterminal responses i m h m 0 (by omega),
   pollPSFrom_nonterminal responses i m h m 0 (by omega)⟩

/-- C5 witness: with `max_attempts = 3`, `poll_interval = 5` and every
response `status: pending`, both pollers time out after exactly 3 checks
reporting 15 seconds. -/
theorem C5_timeout_witness :
    BaseAdobeAPI.poll_job_status
        (fun _ => ⟨some (some "pending"), none, none, none, none⟩) 5 3
      = (.timedOut 15, 3) ∧
    AdobePhotoshopAPI.poll_job_status
        (fun _ => ⟨some (some "pending"), none, none, none, none⟩) 5 3
      = (.timedOut 15, 3) :=
  C5_timeout_after_max_attempts
    (fun _ => ⟨some (some "pending"), none, none, none, none⟩) 5 3
    (fun _ => ⟨"pending", rfl, by decide, by decide⟩)

/-- C6: when the first response's extracted status is `failed`, both pollers
abort after exactly one status check with a job-failure error whose message
carries the response's error payload (the `error` field, falling back to the
`message` field) verbatim. -/
theorem C6_failed_aborts_first_attempt (responses : ℕ → StatusData) (i m : ℕ)
    (hm : 0 < m) (h : extractStatus (responses 0) = some "failed") :
    BaseAdobeAPI.poll_job_status responses i m
      = (.jobFailed ("Job failed: " ++ errorPayload (responses 0)), 1) ∧
    AdobePhotoshopAPI.poll_job_status responses i m
      = (.jobFailed ("Job failed: " ++ errorPayload (responses 0)), 1) := by
  constructor
  · rw [BaseAdobeAPI.poll_job_status, pollBaseFrom]
    simp [hm, h]
  · rw [AdobePhotoshopAPI.poll_job_status, pollPSFrom]
    simp [hm, h]

/-- C6 witness: every response is `status: failed, error: bad input`; both
pollers raise `Job failed: bad input` after exactly one attempt. -/
theorem C6_failed_witness :
    BaseAdobeAPI.poll_job_status
        (fun _ => ⟨some (some "failed"), none, none, some "bad input", none⟩) 5 3
      = (.jobFailed "Job failed: bad input", 1) ∧
    AdobePhotoshopAPI.poll_job_status
        (fun _ => ⟨some (some "failed"), none, none, some "bad input", none⟩) 5 3
      = (.jobFailed "Job failed: bad input", 1) :=
  C6_failed_aborts_first_attempt
    (fun _ => ⟨some (some "failed"), none, none, some "bad input", none⟩) 5 3
    (by norm_num) rfl

/-- C7: over every chronological sequence of `acquire` and `get_wait_time`
calls requesting non-negative amounts, a token bucket with non-negative
refill rate satisfies `0 ≤ tokens ≤ capacity` after every prefix of the
sequence: refill never raises `tokens` above `capacity`, and `acquire`
deducts only when enough tokens are available, so `tokens` never becomes
negative. -/
theorem C7_token_bucket_invariant (b : TokenBucket) (cs : List TBCall)
    (h0 : 0 ≤ b.tokens) (h1 : b.tokens ≤ b.capacity) (hr : 0 ≤ b.refill_rate)
    (ha : ∀ c ∈ cs, 0 ≤ c.amount) (ht : chronological b.last_refill cs) :
    ∀ k, 0 ≤ (b.run (List.take k cs)).tokens ∧
         (b.run (List.take k cs)).tokens ≤ (b.run (List.take k cs)).capacity := by
  induction cs generalizing b with
  | nil =>
    intro k
    simpa [TokenBucket.run] using ⟨h0, h1⟩
  | cons c rest ih =>
    intro k
    cases k with
    | zero => simpa [TokenBucket.run] using ⟨h0, h1⟩
    | succ k =>
      obtain ⟨⟨s0, s1⟩, scap, srate, slast⟩ :=
        step_inv b c h0 h1 hr ht.1 (ha c (List.mem_cons_self c rest))
      have hrest : ∀ x ∈ rest, 0 ≤ x.amount := fun x hx => ha x (List.mem_cons_of_mem c hx)
      have hchron : chronological (b.step c).last_refill rest := by
        rw [slast]; exact ht.2
      have hrate : 0 ≤ (b.step c).refill_rate := by rw [srate]; exact hr
      have hmain := ih (b.step c) s0 s1 hrate hrest hchron k
      simpa [TokenBucket.run, List.take_succ_cons, List.foldl_cons] using hmain

/-- C7 witness: a fresh bucket of capacity 2, refill rate 1, constructed at
t = 0, run through an acquisition at t = 1, a wait query at t = 2 and an
oversized acquisition at t = 3, keeps `0 ≤ tokens ≤ capacity` after the
two-call prefix. -/
theorem C7_token_bucket_invariant_witness :
    0 ≤ ((TokenBucket.init 2 1 0).run
          (List.take 2 [TBCall.acq 1 1, TBCall.gwt 2 1, TBCall.acq 3 5])).tokens ∧
    ((TokenBucket.init 2 1 0).run
        (List.take 2 [TBCall.acq 1 1, TBCall.gwt 2 1, TBCall.acq 3 5])).tokens
      ≤ ((TokenBucket.init 2 1 0).run
          (List.take 2 [TBCall.acq 1 1, TBCall.gwt 2 1, TBCall.acq 3 5])).capacity :=
  C7_token_bucket_invariant (TokenBucket.init 2 1 0)
    [TBCall.acq 1 1, TBCall.gwt 2 1, TBCall.acq 3 5]
    (by norm_num [TokenBucket.init]) (by norm_num [TokenBucket.init])
    (by norm_num [TokenBucket.init])
    (by intro c hc; fin_cases hc <;> norm_num [TBCall.amount])
    (by norm_num [chronological, TBCall.time, TokenBucket.init]) 2

/-- C8: against a freshly constructed token bucket of capacity `C ≥ 1`, a
burst of `n ≤ C` single-token acquisitions issued with no elapsed time all
succeed, and after a burst of exactly `C` such acquisitions one more
acquisition in the same burst fails. -/
theorem C8_fresh_bucket_burst (C n : ℕ) (r t0 : ℚ) (_hC : 1 ≤ C) (hn : n ≤ C) :
    ((TokenBucket.init (C : ℚ) r t0).burstAcquire t0 n).1 = List.replicate n true ∧
    (((TokenBucket.init (C : ℚ) r t0).burstAcquire t0 C).2.acquire t0 1).1 = false := by
  have hCn : ((n : ℚ)) ≤ (C : ℚ) := by exact_mod_cast hn
  constructor
  · rw [show TokenBucket.init (C : ℚ) r t0 = TokenBucket.mk (C : ℚ) r (C : ℚ) t0 from rfl]
    rw [burstAcquire_run (C : ℚ) r t0 (C : ℚ) n le_rfl hCn]
  · rw [show TokenBucket.init (C : ℚ) r t0 = TokenBucket.mk (C : ℚ) r (C : ℚ) t0 from rfl]
    rw [burstAcquire_run (C : ℚ) r t0 (C : ℚ) C le_rfl le_rfl]
    simp [TokenBucket.acquire, TokenBucket.refill]
    norm_num

/-- C8 witness: capacity 2, refill rate 1, constructed at t = 0: a burst of
2 single-token acquisitions all succeed, and a 3rd acquisition in the same
burst fails. -/
theorem C8_fresh_bucket_burst_witness :
    ((TokenBucket.init ((2 : ℕ) : ℚ) 1 0).burstAcquire 0 2).1 = List.replicate 2 true ∧
    (((TokenBucket.init ((2 : ℕ) : ℚ) 1 0).burstAcquire 0 2).2.acquire 0 1).1 = false :=
  C8_fresh_bucket_burst 2 2 1 0 (by norm_num) (by norm_num)

/-- C9: a sliding window with `maxRequests = 3, windowSeconds = 10`: three
acquisitions at t = 0 all succeed; a fourth at t = 5 fails; a fifth at
t = 11 succeeds, because the admissions recorded at t = 0 have aged out of
the window and are evicted — the final deque holds only the t = 11
admission. -/
theorem C9_sliding_window_scenario :
    ((SlidingWindow.init 3 10).acquire 0).1 = true ∧
    (((SlidingWindow.init 3 10).acquire 0).2.acquire 0).1 = true ∧
    ((((SlidingWindow.init 3 10).acquire 0).2.acquire 0).2.acquire 0).1 = true ∧
    (((((SlidingWindow.init 3 10).acquire 0).2.acquire 0).2.acquire 0).2.acquire 5).1
      = false ∧
    ((((((SlidingWindow.init 3 10).acquire 0).2.acquire 0).2.acquire 0).2.acquire
        5).2.acquire 11).1 = true ∧
    ((((((SlidingWindow.init 3 10).acquire 0).2.acquire 0).2.acquire 0).2.acquire
        5).2.acquire 11).2.requests = [11] := by
  refine ⟨?_, ?_, ?_, ?_, ?_, ?_⟩ <;>
    norm_num [SlidingWindow.init, SlidingWindow.acquire, evictOld]

/-- C10: for a name registered with a SlidingWindow or FixedWindow limiter,
the registry's `acquire` and `get_wait_time` ignore the `tokens` argument
entirely (any two amounts give identical results and states); a successful
sliding-window acquisition consumes exactly one admission slot — the deque
after the call is the evicted deque plus the single new timestamp — and a
TokenBucket-backed registry does honor the amount (acquiring 2 leaves a
different state than acquiring 1). -/
theorem C10_window_limiters_ignore_tokens (r : RateLimiter) (name : String)
    (now n m : ℚ)
    (h : (∃ w, lookupLimiter name r.limiters = some (.sw w)) ∨
         (∃ w, lookupLimiter name r.limiters = some (.fw w))) :
    (r.acquire name now n = r.acquire name now m ∧
     r.get_wait_time name now n = r.get_wait_time name now m) ∧
    (∀ w, lookupLimiter name r.limiters = some (.sw w) →
      (r.acquire name now n).1 = true →
      lookupLimiter name (r.acquire name now n).2.limiters
        = some (.sw { w with
            requests := evictOld now w.time_window w.requests ++ [now] })) ∧
    RateLimiter.acquire ⟨[("openai_chat", .tb (TokenBucket.init 2 1 0))]⟩
        "openai_chat" 0 2
      ≠ RateLimiter.acquire ⟨[("openai_chat", .tb (TokenBucket.init 2 1 0))]⟩
        "openai_chat" 0 1 := by
  refine ⟨?_, ?_, ?_⟩
  · rcases h with ⟨w, hw⟩ | ⟨w, hw⟩ <;>
      exact ⟨by simp [RateLimiter.acquire, hw], by simp [RateLimiter.get_wait_time, hw]⟩
  · intro w hw hsucc
    simp only [RateLimiter.acquire, hw] at hsucc ⊢
    simp only [SlidingWindow.acquire] at hsucc ⊢
    split_ifs at hsucc ⊢ with hc
    exact lookup_set name _ r.limiters (by simp [hw])
  · intro hEq
    have h2 := congrArg (fun p => p.2) hEq
    norm_num [RateLimiter.acquire, lookupLimiter, setLimiter, TokenBucket.init,
      TokenBucket.acquire, TokenBucket.refill] at h2

/-- C10 witness: a registry holding one sliding window (limit 2 per 10 s,
empty deque): acquiring 5 tokens equals acquiring 1 token, the reported
waits coincide, and the successful acquisition appends exactly one
timestamp. -/
theorem C10_window_limiters_witness :
    (RateLimiter.acquire ⟨[("s3_operations", .sw ⟨2, 10, []⟩)]⟩ "s3_operations" 0 5
       = RateLimiter.acquire ⟨[("s3_operations", .sw ⟨2, 10, []⟩)]⟩ "s3_operations" 0 1 ∧
     RateLimiter.get_wait_time ⟨[("s3_operations", .sw ⟨2, 10, []⟩)]⟩ "s3_operations" 0 5
       = RateLimiter.get_wait_time ⟨[("s3_operations", .sw ⟨2, 10, []⟩)]⟩
           "s3_operations" 0 1) ∧
    ((RateLimiter.acquire ⟨[("s3_operations", .sw ⟨2, 10, []⟩)]⟩
        "s3_operations" 0 5).1 = true →
     lookupLimiter "s3_operations"
        (RateLimiter.acquire ⟨[("s3_operations", .sw ⟨2, 10, []⟩)]⟩
          "s3_operations" 0 5).2.limiters
       = some (.sw ⟨2, 10, evictOld 0 10 [] ++ [0]⟩)) :=
  ⟨(C10_window_limiters_ignore_tokens ⟨[("s3_operations", .sw ⟨2, 10, []⟩)]⟩
      "s3_operations" 0 5 1 (Or.inl ⟨⟨2, 10, []⟩, rfl⟩)).1,
   (C10_window_limiters_ignore_tokens ⟨[("s3_operations", .sw ⟨2, 10, []⟩)]⟩
      "s3_operations" 0 5 1 (Or.inl ⟨⟨2, 10, []⟩, rfl⟩)).2.1 ⟨2, 10, []⟩ rfl⟩
